import Mathlib

/-!
Verification of `easy_mmap` (src/src/lib.rs): a typed, bounds-checked view
over a raw memory mapping, with a builder and sequential/parallel iteration.

Shallow embedding notes:
* The OS-level mapping primitive (`mmap::MemoryMap::new`) and the file resize
  call (`File::set_len`) are external collaborators; they are parametrized by
  an `OsEnv` that says whether each call succeeds, and by `init`, the
  (unspecified) initial contents of the mapped memory.
* In the Rust source every failure terminates the process: `MemoryMap::new(..).unwrap()`,
  `file.set_len(..).unwrap()`, and the `panic!` in `Index`/`IndexMut`.  The
  public signatures return values directly, never a recoverable `Result`.
  The model represents such a termination as the `.error` branch of
  `Except Panic`, carrying the failure kind.
* The mapped region (`_data: &mut [T]`, length = capacity) is a `List α`.
-/

/-- The subset of `mmap::MapOption` constructors that the crate uses or can
receive from callers.  `MapFd` carries a raw file descriptor,
`MapNonStandardFlags` carries raw `libc` flags. -/
inductive MapOption where
  | MapReadable : MapOption
  | MapWritable : MapOption
  | MapExecutable : MapOption
  | MapAddr (addr : Nat) : MapOption
  | MapFd (fd : Int) : MapOption
  | MapOffset (off : Nat) : MapOption
  | MapNonStandardFlags (flags : Int) : MapOption
deriving DecidableEq, Repr

/-- `libc::MAP_SHARED` on Linux. -/
def MAP_SHARED : Int := 1

/-- The three process-terminating failure kinds of the crate. -/
inductive Panic where
  | AllocationError : Panic
  | FileResizeError : Panic
  | IndexOutOfRange (index : Nat) : Panic
deriving DecidableEq, Repr

/-- Model of `mmap::MemoryMap`: the byte length requested and the option list
passed to the OS primitive. -/
structure MemoryMap where
  byteLen : Nat
  options : List MapOption
deriving DecidableEq, Repr

/-- Model of `std::fs::File`: its raw descriptor and its current length in
bytes (the only attributes the crate touches: `as_raw_fd`, `set_len`). -/
structure File where
  fd : Int
  length : Nat
deriving DecidableEq, Repr

/-- The external collaborators, as black boxes: whether the OS accepts a
mapping request of a given byte length and option list, and whether a
`set_len` call on a given descriptor to a given length succeeds. -/
structure OsEnv where
  mmapOk : Nat → List MapOption → Bool
  setLenOk : Int → Nat → Bool

/-- Model of `EasyMmap<'a, T>`: the owned `MemoryMap`, the typed slice over
the mapped bytes, the element capacity, and the optionally owned file. -/
structure EasyMmap (α : Type) where
  _map : MemoryMap
  _data : List α
  capacity : Nat
  _file : Option File
deriving DecidableEq, Repr

namespace EasyMmap

variable {α : Type}

/-- `EasyMmap::new`: asks the OS for `capacity * size_of::<T>()` bytes with
the given options, then overlays a slice of `capacity` elements.  The
`.unwrap()` on the OS result is the `.error .AllocationError` branch.
`sizeT` is `size_of::<T>()`; `init i` is the (externally determined) initial
content of element `i` of the fresh mapping. -/
def new (sizeT : Nat) (os : OsEnv) (init : Nat → α) (capacity : Nat)
    (options : List MapOption) (file : Option File) : Except Panic (EasyMmap α) :=
  if os.mmapOk (capacity * sizeT) options then
    Except.ok
      { _map := { byteLen := capacity * sizeT, options := options }
        _data := (List.range capacity).map init
        capacity := capacity
        _file := file }
  else Except.error Panic.AllocationError

/-- `EasyMmap::len`: returns the capacity field. -/
def len (m : EasyMmap α) : Nat :=
  m.capacity

/-- `Index::index` (a read, `map[i]`): panics with the out-of-bounds message
when `index >= self.len()`, otherwise returns the element. -/
def index [Inhabited α] (m : EasyMmap α) (index : Nat) : Except Panic α :=
  if index ≥ m.len then Except.error (Panic.IndexOutOfRange index)
  else Except.ok (m._data.getD index default)

/-- `IndexMut::index_mut` followed by a store (`map[i] = v`): the bounds
check and `panic!` happen before any write, so on failure the buffer is
returned untouched alongside the panic. -/
def put (m : EasyMmap α) (index : Nat) (v : α) :
    Except Panic Unit × EasyMmap α :=
  if index ≥ m.len then (Except.error (Panic.IndexOutOfRange index), m)
  else (Except.ok (), { m with _data := m._data.set index v })

/-- `EasyMmap::iter` collected: the sequence of elements in index order. -/
def iter (m : EasyMmap α) : List α :=
  m._data

/-- The loop body of `EasyMmap::fill`: walks the slice in increasing index
order (starting at `i`), storing `f(index)` into each cell. -/
def fillFrom (f : Nat → α) : Nat → List α → List α
  | _, [] => []
  | i, _ :: rest => f i :: fillFrom f (i + 1) rest

/-- `EasyMmap::fill`: `for (i, v) in self._data.iter_mut().enumerate() { *v = f(i) }`. -/
def fill (m : EasyMmap α) (f : Nat → α) : EasyMmap α :=
  { m with _data := fillFrom f 0 m._data }

/-- Well-formedness established by `new`: the typed slice has exactly
`capacity` elements. -/
def WF (m : EasyMmap α) : Prop :=
  m._data.length = m.capacity

instance (m : EasyMmap α) : Decidable m.WF := by
  unfold WF; infer_instance

/-- Sequential element-wise application of `g` through `iter()`. -/
def seqApply {β : Type} (g : α → β) (m : EasyMmap α) : List β :=
  m.iter.map g

/-- One worker's share of `par_iter().map(g)`: the chunk of indices it was
handed, each paired with the result of `g` on that element. -/
def parApplyChunk {β : Type} [Inhabited α] (g : α → β) (m : EasyMmap α)
    (chunk : List Nat) : List (Nat × β) :=
  chunk.map (fun i => (i, g (m._data.getD i default)))

/-- `par_iter().map(g)` under a partitioning `P` of the index range: the
concatenation of all workers' outputs, in whatever order the pool delivered
the chunks. -/
def parApply {β : Type} [Inhabited α] (g : α → β) (m : EasyMmap α)
    (P : List (List Nat)) : List (Nat × β) :=
  (P.map (parApplyChunk g m)).flatten

end EasyMmap

/-- Model of `EasyMmapBuilder<T>` (its `PhantomData` field is dropped). -/
structure EasyMmapBuilder (α : Type) where
  file : Option File
  capacity : Nat
  options : List MapOption
deriving DecidableEq, Repr

namespace EasyMmapBuilder

variable {α : Type}

/-- `EasyMmapBuilder::new`: no file, zero capacity, empty option list. -/
def new : EasyMmapBuilder α :=
  { file := none, capacity := 0, options := [] }

/-- `EasyMmapBuilder::file`: stores the file, taking ownership. -/
def fileSet (b : EasyMmapBuilder α) (file : File) : EasyMmapBuilder α :=
  { b with file := some file }

/-- `EasyMmapBuilder::capacity`: overwrites the recorded capacity. -/
def capacitySet (b : EasyMmapBuilder α) (capacity : Nat) : EasyMmapBuilder α :=
  { b with capacity := capacity }

/-- `EasyMmapBuilder::options`: replaces the whole option list
(`self.options = options.to_vec()`). -/
def optionsSet (b : EasyMmapBuilder α) (options : List MapOption) :
    EasyMmapBuilder α :=
  { b with options := options }

/-- `EasyMmapBuilder::add_option`: pushes one option. -/
def add_option (b : EasyMmapBuilder α) (option : MapOption) :
    EasyMmapBuilder α :=
  { b with options := b.options ++ [option] }

/-- `EasyMmapBuilder::readable`: pushes `MapReadable`. -/
def readable (b : EasyMmapBuilder α) : EasyMmapBuilder α :=
  { b with options := b.options ++ [MapOption.MapReadable] }

/-- `EasyMmapBuilder::writable`: pushes `MapWritable`. -/
def writable (b : EasyMmapBuilder α) : EasyMmapBuilder α :=
  { b with options := b.options ++ [MapOption.MapWritable] }

/-- `EasyMmapBuilder::build`: when a file is present, first
`file.set_len(capacity * size_of::<T>()).unwrap()` (its failure is the
`.error .FileResizeError` branch), then push `MapFd(fd)` and
`MapNonStandardFlags(MAP_SHARED)`, then call `EasyMmap::new` with the file;
otherwise call `EasyMmap::new` directly with the accumulated options and no
file. -/
def build (sizeT : Nat) (os : OsEnv) (init : Nat → α) (b : EasyMmapBuilder α) :
    Except Panic (EasyMmap α) :=
  match b.file with
  | some f =>
      if os.setLenOk f.fd (b.capacity * sizeT) then
        let f' : File := { f with length := b.capacity * sizeT }
        let opts := b.options ++
          [MapOption.MapFd f'.fd, MapOption.MapNonStandardFlags MAP_SHARED]
        EasyMmap.new sizeT os init b.capacity opts (some f')
      else Except.error Panic.FileResizeError
  | none => EasyMmap.new sizeT os init b.capacity b.options none

end EasyMmapBuilder

/-! ## Helper definitions and lemmas -/

/-- A collaborator environment in which every OS call succeeds. -/
def osAll : OsEnv :=
  { mmapOk := fun _ _ => true, setLenOk := fun _ _ => true }

/-- A collaborator environment in which the mapping primitive refuses every
request. -/
def osNoMmap : OsEnv :=
  { mmapOk := fun _ _ => false, setLenOk := fun _ _ => true }

/-- A collaborator environment in which `set_len` fails on every call. -/
def osNoSetLen : OsEnv :=
  { mmapOk := fun _ _ => true, setLenOk := fun _ _ => false }

/-- A concrete two-element buffer used by the witnesses. -/
def demoMap : EasyMmap Nat :=
  { _map := { byteLen := 16, options := [MapOption.MapReadable, MapOption.MapWritable] }
    _data := [5, 7]
    capacity := 2
    _file := none }

theorem fillFrom_eq_map_range' {α : Type} (f : Nat → α) :
    ∀ (i : Nat) (l : List α),
      EasyMmap.fillFrom f i l = (List.range' i l.length).map f := by
  intro i l
  induction l generalizing i with
  | nil => rfl
  | cons a rest ih =>
      simp [EasyMmap.fillFrom, List.range'_succ, ih]

theorem enum_map_getD {α β : Type} [Inhabited α] (g : α → β) (l : List α) :
    (l.map g).enum = (List.range l.length).map
      (fun i => (i, g (l.getD i default))) := by
  apply List.ext_getElem
  · simp
  · intro i h1 h2
    simp only [List.getElem_enum, List.getElem_map, List.getElem_range]
    have hi : i < l.length := by simpa using h1
    rw [List.getD_eq_getElem l default hi]

theorem parApply_eq_flatten_map {α β : Type} [Inhabited α] (g : α → β)
    (m : EasyMmap α) (P : List (List Nat)) :
    m.parApply g P = P.flatten.map
      (fun i => (i, g (m._data.getD i default))) := by
  unfold EasyMmap.parApply EasyMmap.parApplyChunk
  rw [List.map_flatten]

theorem new_ok_iff {α : Type} (sizeT : Nat) (os : OsEnv) (init : Nat → α)
    (capacity : Nat) (options : List MapOption) (file : Option File)
    (m : EasyMmap α) :
    EasyMmap.new sizeT os init capacity options file = Except.ok m ↔
      (os.mmapOk (capacity * sizeT) options = true ∧
       m = { _map := { byteLen := capacity * sizeT, options := options }
             _data := (List.range capacity).map init
             capacity := capacity
             _file := file }) := by
  unfold EasyMmap.new
  by_cases hc : os.mmapOk (capacity * sizeT) options = true
  · simp [hc, eq_comm]
  · simp [hc]

theorem build_ok_iff_none {α : Type} (sizeT : Nat) (os : OsEnv)
    (init : Nat → α) (b : EasyMmapBuilder α) (m : EasyMmap α)
    (hf : b.file = none) :
    b.build sizeT os init = Except.ok m ↔
      EasyMmap.new sizeT os init b.capacity b.options none = Except.ok m := by
  unfold EasyMmapBuilder.build
  rw [hf]

theorem build_ok_iff_some {α : Type} (sizeT : Nat) (os : OsEnv)
    (init : Nat → α) (b : EasyMmapBuilder α) (m : EasyMmap α) (f : File)
    (hf : b.file = some f) :
    b.build sizeT os init = Except.ok m ↔
      (os.setLenOk f.fd (b.capacity * sizeT) = true ∧
       EasyMmap.new sizeT os init b.capacity
         (b.options ++
           [MapOption.MapFd f.fd, MapOption.MapNonStandardFlags MAP_SHARED])
         (some { fd := f.fd, length := b.capacity * sizeT }) = Except.ok m) := by
  unfold EasyMmapBuilder.build
  rw [hf]
  by_cases hs : os.setLenOk f.fd (b.capacity * sizeT) = true
  · simp [hs]
  · simp [hs]

/-! ## Claims -/

/-- C1: for every buffer `b` and every index `i ≥ b.len()`, both the indexed
read (`get`) and the indexed write (`put`) fail with `IndexOutOfRange i` —
the index is reported as is, never clamped or wrapped — and after the failed
write the buffer is unchanged, so every index in `[0, len())` still reads
the same value. -/
theorem get_put_out_of_range {α : Type} [Inhabited α] (m : EasyMmap α)
    (i : Nat) (v : α) (h : i ≥ m.len) :
    m.index i = Except.error (Panic.IndexOutOfRange i) ∧
    (m.put i v).1 = Except.error (Panic.IndexOutOfRange i) ∧
    (m.put i v).2 = m ∧
    ∀ j, j < m.len → ((m.put i v).2).index j = m.index j := by
  unfold EasyMmap.index EasyMmap.put
  simp [h]

/-- Witness for C1 at a concrete buffer of length 2 and index 2. -/
theorem get_put_out_of_range_witness :
    (2 ≥ demoMap.len) ∧
    (demoMap.index 2 = Except.error (Panic.IndexOutOfRange 2) ∧
     (demoMap.put 2 9).1 = Except.error (Panic.IndexOutOfRange 2) ∧
     (demoMap.put 2 9).2 = demoMap ∧
     ∀ j, j < demoMap.len → ((demoMap.put 2 9).2).index j = demoMap.index j) :=
  ⟨by decide, get_put_out_of_range demoMap 2 9 (by decide)⟩

/-- C2: for every well-formed buffer, every in-range index `i` and every
value `v`, writing `v` at `i` and then reading `i` returns exactly `v`. -/
theorem put_then_get {α : Type} [Inhabited α] (m : EasyMmap α) (hwf : m.WF)
    (i : Nat) (v : α) (h : i < m.len) :
    ((m.put i v).2).index i = Except.ok v := by
  have h' : ¬ m.capacity ≤ i := not_le.mpr h
  have hi : i < (m._data.set i v).length := by
    rw [List.length_set]
    rw [EasyMmap.WF] at hwf
    rw [hwf]
    exact h
  simp only [EasyMmap.put, EasyMmap.index, EasyMmap.len, ge_iff_le, h',
    if_false]
  rw [List.getD_eq_getElem _ default hi, List.getElem_set_self]

/-- Witness for C2: write 9 at index 0 of a concrete buffer, read it back. -/
theorem put_then_get_witness :
    demoMap.WF ∧ (0 < demoMap.len) ∧
    ((demoMap.put 0 9).2).index 0 = Except.ok 9 :=
  ⟨by decide, by decide, put_then_get demoMap (by decide) 0 9 (by decide)⟩

/-- C3: for every well-formed buffer of length `n` and every function `f`,
`fill f` overwrites element `i` with `f i` for every `i` (the loop visits
the cells in increasing index order, as `fillFrom` records), so collecting
the sequential iterator afterwards yields `[f 0, f 1, ..., f (n-1)]`. -/
theorem fill_then_iter {α : Type} (m : EasyMmap α) (f : Nat → α)
    (hwf : m.WF) :
    (m.fill f).iter = (List.range m.len).map f := by
  show EasyMmap.fillFrom f 0 m._data = (List.range m.len).map f
  rw [fillFrom_eq_map_range' f 0 m._data]
  rw [EasyMmap.WF] at hwf
  rw [hwf, ← List.range_eq_range' m.capacity]
  rfl

/-- Witness for C3: fill a concrete two-element buffer with `i * 10`. -/
theorem fill_then_iter_witness :
    demoMap.WF ∧
    (demoMap.fill (fun i => i * 10)).iter =
      (List.range demoMap.len).map (fun i => i * 10) :=
  ⟨by decide, fill_then_iter demoMap (fun i => i * 10) (by decide)⟩

/-- C4: a buffer freshly produced by the builder whose last recorded
capacity is `n` has `len() = n` (a pure field read), and whenever the build
succeeded, every index below `n` is readable without failure: the
out-of-range branch of `index` is unreachable there. -/
theorem fresh_build_len_and_access {α : Type} [Inhabited α] (sizeT : Nat)
    (os : OsEnv) (init : Nat → α) (n : Nat) (b : EasyMmapBuilder α)
    (m : EasyMmap α)
    (hok : (b.capacitySet n).build sizeT os init = Except.ok m) :
    m.len = n ∧ ∀ i, i < n → ∃ v, m.index i = Except.ok v := by
  have hcap : m.capacity = n ∧ m._data.length = n := by
    cases hf : (b.capacitySet n).file with
    | none =>
        rw [build_ok_iff_none sizeT os init _ m hf, new_ok_iff] at hok
        rw [hok.2]
        exact ⟨rfl, by simp [EasyMmapBuilder.capacitySet]⟩
    | some f =>
        rw [build_ok_iff_some sizeT os init _ m f hf, new_ok_iff] at hok
        rw [hok.2.2]
        exact ⟨rfl, by simp [EasyMmapBuilder.capacitySet]⟩
  refine ⟨hcap.1, ?_⟩
  intro i hi
  refine ⟨m._data.getD i default, ?_⟩
  rw [EasyMmap.index]
  rw [if_neg]
  rw [EasyMmap.len, hcap.1]
  exact not_le.mpr hi

/-- The buffer that `build` returns in the witness configuration for C4. -/
def demoBuilt : EasyMmap Nat :=
  { _map := { byteLen := 12, options := [] }
    _data := [0, 1, 2]
    capacity := 3
    _file := none }

/-- Witness for C4: build with capacity 3 over an all-accepting OS. -/
theorem fresh_build_len_and_access_witness :
    ((EasyMmapBuilder.new : EasyMmapBuilder Nat).capacitySet 3).build 4 osAll
        (fun i => i) = Except.ok demoBuilt ∧
    (demoBuilt.len = 3 ∧ ∀ i, i < 3 → ∃ v, demoBuilt.index i = Except.ok v) :=
  ⟨rfl,
   fresh_build_len_and_access 4 osAll (fun i => i) 3 EasyMmapBuilder.new
     demoBuilt rfl⟩

/-- C5: the builder accepts capacity 0 without any special-casing: when the
external mapping primitive accepts the resulting zero-byte request (and any
`set_len` call succeeds), `build` on a zero-capacity configuration returns
a valid empty buffer with `len() = 0` rather than failing. -/
theorem build_zero_capacity {α : Type} (sizeT : Nat) (os : OsEnv)
    (init : Nat → α) (b : EasyMmapBuilder α)
    (hmm : ∀ opts, os.mmapOk 0 opts = true)
    (hsl : ∀ fd l, os.setLenOk fd l = true) :
    ∃ m : EasyMmap α, (b.capacitySet 0).build sizeT os init = Except.ok m ∧
      m.len = 0 ∧ m.iter = [] := by
  cases hf : (b.capacitySet 0).file with
  | none =>
      refine ⟨{ _map := { byteLen := (b.capacitySet 0).capacity * sizeT
                          options := (b.capacitySet 0).options }
                _data := (List.range (b.capacitySet 0).capacity).map init
                capacity := (b.capacitySet 0).capacity
                _file := none }, ?_, rfl, rfl⟩
      rw [build_ok_iff_none sizeT os init _ _ hf, new_ok_iff]
      refine ⟨?_, rfl⟩
      simpa [EasyMmapBuilder.capacitySet] using hmm b.options
  | some f =>
      refine ⟨{ _map := { byteLen := (b.capacitySet 0).capacity * sizeT
                          options := (b.capacitySet 0).options ++
                            [MapOption.MapFd f.fd,
                             MapOption.MapNonStandardFlags MAP_SHARED] }
                _data := (List.range (b.capacitySet 0).capacity).map init
                capacity := (b.capacitySet 0).capacity
                _file := some { fd := f.fd
                                length := (b.capacitySet 0).capacity * sizeT } },
              ?_, rfl, rfl⟩
      rw [build_ok_iff_some sizeT os init _ _ f hf, new_ok_iff]
      refine ⟨hsl f.fd _, ?_, rfl⟩
      simpa [EasyMmapBuilder.capacitySet] using
        hmm (b.options ++
          [MapOption.MapFd f.fd, MapOption.MapNonStandardFlags MAP_SHARED])

/-- Witness for C5: zero capacity over an all-accepting OS environment. -/
theorem build_zero_capacity_witness :
    ∃ m : EasyMmap Nat,
      ((EasyMmapBuilder.new : EasyMmapBuilder Nat).capacitySet 0).build 4
          osAll (fun i => i) = Except.ok m ∧ m.len = 0 ∧ m.iter = [] :=
  build_zero_capacity 4 osAll (fun i => i) EasyMmapBuilder.new
    (fun _ => rfl) (fun _ _ => rfl)

/-- C6: whenever `build` succeeds, a supplied backing file ends up owned by
the buffer with its length set to exactly `capacity * size_of(T)` bytes, and
the option list passed to the mapping primitive is the accumulated list with
`MapFd(fd)` and `MapNonStandardFlags(MAP_SHARED)` (process-shared, not
private copy-on-write) appended; with no file supplied, the option list is
passed through unchanged and the buffer owns no file (anonymous mapping). -/
theorem build_file_handling {α : Type} (sizeT : Nat) (os : OsEnv)
    (init : Nat → α) (b : EasyMmapBuilder α) (m : EasyMmap α)
    (hok : b.build sizeT os init = Except.ok m) :
    (∀ f, b.file = some f →
        m._file = some { fd := f.fd, length := b.capacity * sizeT } ∧
        m._map.options = b.options ++
          [MapOption.MapFd f.fd, MapOption.MapNonStandardFlags MAP_SHARED]) ∧
    (b.file = none → m._file = none ∧ m._map.options = b.options) := by
  constructor
  · intro f hf
    rw [build_ok_iff_some sizeT os init b m f hf, new_ok_iff] at hok
    rw [hok.2.2]
    exact ⟨rfl, rfl⟩
  · intro hf
    rw [build_ok_iff_none sizeT os init b m hf, new_ok_iff] at hok
    rw [hok.2]
    exact ⟨rfl, rfl⟩

/-- A builder configuration with a backing file, used by the C6 witness. -/
def demoFileBuilder : EasyMmapBuilder Nat :=
  (((EasyMmapBuilder.new : EasyMmapBuilder Nat).optionsSet
      [MapOption.MapReadable]).capacitySet 2).fileSet { fd := 3, length := 100 }

/-- The buffer `build` returns for `demoFileBuilder` over `osAll`. -/
def demoFileBuilt : EasyMmap Nat :=
  { _map := { byteLen := 8
              options := [MapOption.MapReadable, MapOption.MapFd 3,
                          MapOption.MapNonStandardFlags MAP_SHARED] }
    _data := [0, 1]
    capacity := 2
    _file := some { fd := 3, length := 8 } }

/-- Witness for C6: a concrete file-backed build and its resulting state. -/
theorem build_file_handling_witness :
    demoFileBuilder.build 4 osAll (fun i => i) = Except.ok demoFileBuilt ∧
    ((∀ f, demoFileBuilder.file = some f →
        demoFileBuilt._file = some { fd := f.fd
                                     length := demoFileBuilder.capacity * 4 } ∧
        demoFileBuilt._map.options = demoFileBuilder.options ++
          [MapOption.MapFd f.fd, MapOption.MapNonStandardFlags MAP_SHARED]) ∧
     (demoFileBuilder.file = none →
        demoFileBuilt._file = none ∧
        demoFileBuilt._map.options = demoFileBuilder.options)) :=
  ⟨rfl,
   build_file_handling 4 osAll (fun i => i) demoFileBuilder demoFileBuilt rfl⟩

/-- C7: each of the three failure kinds is fatal in the current code: the
`.unwrap()` on the mapping primitive (AllocationError), the `.unwrap()` on
`set_len` (FileResizeError), and the `panic!` in `Index`/`IndexMut`
(IndexOutOfRange) all end in the `Except.error` branch that models process
termination — none of the public signatures returns a recoverable error
value.  Each conjunct exhibits an input reaching its panic. -/
theorem all_failures_are_panics :
    ((EasyMmapBuilder.new : EasyMmapBuilder Nat).capacitySet 1).build 4
        osNoMmap (fun i => i) = Except.error Panic.AllocationError ∧
    (((EasyMmapBuilder.new : EasyMmapBuilder Nat).capacitySet 1).fileSet
        { fd := 3, length := 0 }).build 4 osNoSetLen (fun i => i) =
      Except.error Panic.FileResizeError ∧
    demoMap.index 5 = Except.error (Panic.IndexOutOfRange 5) ∧
    (demoMap.put 5 0).1 = Except.error (Panic.IndexOutOfRange 5) :=
  ⟨rfl, rfl, rfl, rfl⟩

/-- C8: for a pure per-element function `g` and any partitioning `P` of the
index range into chunks that together visit each index in `[0, len())`
exactly once, the parallel application of `g` produces, up to the
unspecified cross-chunk ordering, exactly the index-tagged outputs of the
sequential application: each index appears once, paired with the same
output `g` gives sequentially. -/
theorem par_iter_matches_seq {α β : Type} [Inhabited α] (g : α → β)
    (m : EasyMmap α) (P : List (List Nat)) (hwf : m.WF)
    (hP : P.flatten.Perm (List.range m.len)) :
    (m.parApply g P).Perm ((m.seqApply g).enum) := by
  rw [parApply_eq_flatten_map]
  have h2 : (m.seqApply g).enum = (List.range m.len).map
      (fun i => (i, g (m._data.getD i default))) := by
    show (m._data.map g).enum = _
    rw [enum_map_getD]
    rw [EasyMmap.WF] at hwf
    rw [hwf]
    rfl
  rw [h2]
  exact hP.map _

/-- Witness for C8: a two-chunk partitioning delivered in reverse order. -/
theorem par_iter_matches_seq_witness :
    demoMap.WF ∧
    ([[1], [0]] : List (List Nat)).flatten.Perm (List.range demoMap.len) ∧
    (demoMap.parApply (fun x => x + 1) [[1], [0]]).Perm
      ((demoMap.seqApply (fun x => x + 1)).enum) :=
  ⟨by decide, by decide,
   par_iter_matches_seq (fun x => x + 1) demoMap [[1], [0]] (by decide)
     (by decide)⟩

/-- C9: `capacity` overwrites the recorded capacity (last call wins),
`options` replaces the entire accumulated option list, and `add_option`
appends one option to the existing list. -/
theorem builder_setter_semantics {α : Type} (b : EasyMmapBuilder α)
    (n1 n2 : Nat) (l : List MapOption) (o : MapOption) :
    ((b.capacitySet n1).capacitySet n2).capacity = n2 ∧
    (b.optionsSet l).options = l ∧
    (b.add_option o).options = b.options ++ [o] :=
  ⟨rfl, rfl, rfl⟩

/-- C10: a fresh builder starts with no file, capacity 0 and an empty option
list, so an unconfigured `build()` requests a mapping of `0` bytes with an
empty option list. -/
theorem builder_new_defaults {α : Type} (sizeT : Nat) (os : OsEnv)
    (init : Nat → α) (m : EasyMmap α)
    (hok : (EasyMmapBuilder.new : EasyMmapBuilder α).build sizeT os init =
      Except.ok m) :
    (EasyMmapBuilder.new : EasyMmapBuilder α).file = none ∧
    (EasyMmapBuilder.new : EasyMmapBuilder α).capacity = 0 ∧
    (EasyMmapBuilder.new : EasyMmapBuilder α).options = [] ∧
    m._map.byteLen = 0 ∧ m._map.options = [] := by
  rw [build_ok_iff_none sizeT os init _ m rfl, new_ok_iff] at hok
  rw [hok.2]
  refine ⟨rfl, rfl, rfl, ?_, rfl⟩
  simp [EasyMmapBuilder.new]

/-- The empty buffer an unconfigured `build()` returns over `osAll`. -/
def demoEmptyBuilt : EasyMmap Nat :=
  { _map := { byteLen := 0, options := [] }
    _data := []
    capacity := 0
    _file := none }

/-- Witness for C10: an unconfigured build over an all-accepting OS. -/
theorem builder_new_defaults_witness :
    ((EasyMmapBuilder.new : EasyMmapBuilder Nat).build 4 osAll (fun i => i) =
       Except.ok demoEmptyBuilt) ∧
    ((EasyMmapBuilder.new : EasyMmapBuilder Nat).file = none ∧
     (EasyMmapBuilder.new : EasyMmapBuilder Nat).capacity = 0 ∧
     (EasyMmapBuilder.new : EasyMmapBuilder Nat).options = [] ∧
     demoEmptyBuilt._map.byteLen = 0 ∧ demoEmptyBuilt._map.options = []) :=
  ⟨rfl, builder_new_defaults 4 osAll (fun i => i) demoEmptyBuilt rfl⟩
